import Mathlib

/-!
# Backend service deployer (`internal/pkg/cli/deploy/backend.go`)

A shallow embedding of the backend service deployer: its constructor, the
ALB runtime validation, the stack configuration assembly and the two entry
points `DeployWorkload` and `GenerateCloudFormationTemplate`.

Modelling conventions.

* A Go `error` is a value of `GoError`; a `nil` error is `none` (for a function
  returning only `error`) or the `.ok` branch of `Except`.
* `fmt.Errorf(format, args...)` is kept structured: the format string and its
  arguments are stored, and the `%w` operand is the `cause` of `wrapf`.
* Every call to a collaborator appends one `Event` to a trace that is threaded
  through the code. The answer of a collaborator is a function of the trace
  before the call and of the call's arguments, so a collaborator may answer
  two identical calls differently.
* The event `Event.validateALBRuntime` is a ghost marker recording that the
  body of `validateALBRuntime` was entered.
* Types declared in other packages (`manifest`, `elbv2`, `stack`, ...) carry
  only the fields and method results that `backend.go` reads.
-/

namespace Deploy

/-! ## Errors -/

/-- Operand of a formatting verb other than `%w`. -/
inductive FmtArg
  | str (s : String)
  | int (n : Nat)
  deriving DecidableEq, Repr

/-- Go error values that occur in `backend.go`. -/
inductive GoError
  /-- An error value created outside `backend.go` (by a collaborator). -/
  | external (msg : String)
  /-- Result of `fmt.Errorf(format, args...)` with no `%w` verb. -/
  | errorf (format : String) (args : List FmtArg)
  /-- Result of `fmt.Errorf(format, args..., cause)` whose last verb is `%w`. -/
  | wrapf (format : String) (args : List FmtArg) (cause : GoError)
  /-- The typed error `&errSvcWithNoALBAliasDeployingToEnvWithImportedCerts{name, envName}`. -/
  | errSvcWithNoALBAliasDeployingToEnvWithImportedCerts (name : String) (envName : String)
  deriving DecidableEq, Repr

/-- The error wrapped by an error, as returned by `errors.Unwrap`. -/
def GoError.unwrap : GoError → Option GoError
  | .wrapf _ _ cause => some cause
  | _ => none

/-! ## Data read by the deployer -/

/-- Value of `aws.StringValue` on a `*string`. -/
def StringValue : Option String → String
  | some s => s
  | none => ""

/-- The `manifest.Alias` of a routing rule: the results of its methods
`IsEmpty` and `ToStringSlice`. -/
structure Alias where
  IsEmpty : Bool
  ToStringSlice : Except GoError (List String)

/-- The `manifest.RoutingRule`: the result of `IsEmpty` and the `Alias` field. -/
structure RoutingRule where
  IsEmpty : Bool
  Alias : Alias

/-- The `manifest.HTTP` block: the result of `IsEmpty` and the fields read by
the deployer. -/
structure HTTP where
  IsEmpty : Bool
  ImportedALB : Option String
  Main : RoutingRule
  AdditionalRoutingRules : List RoutingRule

/-- The `manifest.BackendService` manifest. -/
structure BackendService where
  Name : Option String
  HTTP : HTTP

/-- A listener of `elbv2.LoadBalancer`. -/
structure Listener where
  Protocol : String
  Port : Nat
  deriving DecidableEq, Repr

/-- The descriptor `elbv2.LoadBalancer` returned by the lookup. -/
structure LoadBalancer where
  ARN : String
  Scheme : String
  Listeners : List Listener
  deriving DecidableEq, Repr

/-- Private HTTP configuration of the environment. -/
structure PrivateHTTPConfig where
  Certificates : List String

/-- HTTP configuration of the environment. -/
structure EnvHTTPConfig where
  Private : PrivateHTTPConfig

/-- The environment manifest configuration `d.envConfig`. -/
structure EnvironmentConfig where
  HTTPConfig : EnvHTTPConfig

/-- The environment `d.env`. -/
structure Environment where
  Name : String

/-- Options of `stack.NewBackendService`. -/
inductive BackendServiceOption
  | WithImportedInternalALB (lb : LoadBalancer)
  deriving DecidableEq, Repr

/-- A `stack.RuntimeConfig`, identified by a handle. -/
structure RuntimeConfig where
  id : String
  deriving DecidableEq, Repr

/-- A `StackRuntimeConfiguration` input, identified by a handle. -/
structure StackRuntimeConfiguration where
  id : String
  deriving DecidableEq, Repr

/-- A `cloudformation.StackConfiguration`: either one produced by a builder,
or one wrapped by `cloudformation.WrapWithTemplateOverrider`. -/
inductive StackConfiguration
  | built (id : String)
  | WrapWithTemplateOverrider (conf : StackConfiguration) (overrider : String)
  deriving DecidableEq, Repr

/-- The `stack.BackendServiceConfig` handed to `stack.NewBackendService`. -/
structure BackendServiceConfig where
  App : String
  EnvManifest : EnvironmentConfig
  Manifest : BackendService
  RawManifest : String
  ArtifactBucketName : String
  ArtifactKey : String
  RuntimeConfig : RuntimeConfig
  Addons : String

/-- The `svcStackConfigurationOutput`; `svcUpdater` is the handle of the
updater made by `d.newSvcUpdater`. -/
structure svcStackConfigurationOutput where
  conf : StackConfiguration
  svcUpdater : String
  deriving DecidableEq, Repr

/-! ## Trace of collaborator calls -/

/-- One step visible from outside the deployer. -/
inductive Event
  | runtimeConfig (input : StackRuntimeConfiguration)
  | validateALBRuntime
  | LoadBalancer (nameOrARN : String)
  | ValidateCertAliases (aliases : List String) (certs : List String)
  | newStack
  | NewBackendService (opts : List BackendServiceOption)
  | deploy (options : String) (out : svcStackConfigurationOutput)
  | generateCloudFormationTemplate (conf : StackConfiguration)
  deriving DecidableEq, Repr

/-- The events so far, oldest first. -/
abbrev Trace := List Event

/-- The resources `d.resources` of the application in the environment. -/
structure Resources where
  S3Bucket : String
  KMSKeyARN : String

/-- The shared base `svcDeployer` embedded in `backendSvcDeployer`: the fields
read by `backend.go` and the behaviour of the methods and package functions it
calls. -/
structure svcDeployer where
  name : String
  app : String
  env : Environment
  envConfig : EnvironmentConfig
  rawMft : String
  resources : Resources
  addons : String
  overrider : String
  svcUpdater : String
  runtimeConfig : Trace → StackRuntimeConfiguration → Except GoError RuntimeConfig
  NewBackendService : Trace → BackendServiceConfig → List BackendServiceOption →
    Except GoError StackConfiguration
  deploy : Trace → String → svcStackConfigurationOutput → Option GoError
  generateCloudFormationTemplate : Trace → StackConfiguration → Except GoError String

/-- The struct `backendSvcDeployer`. -/
structure backendSvcDeployer where
  base : svcDeployer
  elbGetter : Trace → String → Except GoError LoadBalancer
  backendMft : BackendService
  aliasCertValidator : Trace → List String → List String → Option GoError
  newStack : Option (Trace → StackConfiguration)

/-! ## Validation -/

/-- The tally loop of `validateImportedALBConfig`: the pair
`(quantHTTP, quantHTTPS)` after visiting the listeners in order. -/
def tallyListeners (listeners : List Listener) : Nat × Nat :=
  listeners.foldl
    (fun q listener =>
      if listener.Protocol = "HTTP" then (q.1 + 1, q.2)
      else if listener.Protocol = "HTTPS" then (q.1, q.2 + 1)
      else q)
    (0, 0)

/-- The method `validateImportedALBConfig`. -/
def validateImportedALBConfig (d : backendSvcDeployer) (t : Trace) : Option GoError × Trace :=
  match d.backendMft.HTTP.ImportedALB with
  | none => (none, t)
  | some _ =>
    let nameOrARN := StringValue d.backendMft.HTTP.ImportedALB
    let t1 := t ++ [Event.LoadBalancer nameOrARN]
    match d.elbGetter t nameOrARN with
    | .error err =>
      (some (.wrapf "retrieve load balancer %q: %w" [.str nameOrARN] err), t1)
    | .ok alb =>
      if alb.Scheme ≠ "internal" then
        (some (.errorf
          "imported ALB %q for Backend Service %q should have \"internal\" Scheme value"
          [.str alb.ARN, .str (StringValue d.backendMft.Name)]), t1)
      else if alb.Listeners.length = 0 then
        (some (.errorf
          "imported ALB %q must have at least one listener. For two listeners, one must be of protocol HTTP and the other of protocol HTTPS"
          [.str alb.ARN]), t1)
      else if alb.Listeners.length = 1 then
        (none, t1)
      else
        let q := tallyListeners alb.Listeners
        if q.1 ≠ 1 ∨ q.2 ≠ 1 then
          (some (.errorf
            "imported ALB %q must have exactly one listener of protocol HTTP and exactly one listener of protocol HTTPS"
            [.str alb.ARN]), t1)
        else (none, t1)

/-- The method `validateRuntimeRoutingRule`. -/
def validateRuntimeRoutingRule (d : backendSvcDeployer) (rule : RoutingRule) (t : Trace) :
    Option GoError × Trace :=
  if rule.IsEmpty then (none, t)
  else
    let certs := d.base.envConfig.HTTPConfig.Private.Certificates
    let hasImportedCerts : Bool := decide (certs.length ≠ 0)
    if rule.Alias.IsEmpty && hasImportedCerts then
      (some (.errSvcWithNoALBAliasDeployingToEnvWithImportedCerts d.base.name d.base.env.Name), t)
    else if rule.Alias.IsEmpty then (none, t)
    else if !hasImportedCerts then
      (some (.errorf "cannot specify \"alias\" in an environment without imported certs" []), t)
    else
      match rule.Alias.ToStringSlice with
      | .error err => (some (.wrapf "convert aliases to string slice: %w" [] err), t)
      | .ok aliases =>
        let t1 := t ++ [Event.ValidateCertAliases aliases certs]
        match d.aliasCertValidator t aliases certs with
        | some err =>
          (some (.wrapf "validate aliases against the imported certificate for env %s: %w"
            [.str d.base.env.Name] err), t1)
        | none => (none, t1)

/-- The loop of `validateALBRuntime` over `AdditionalRoutingRules`, started at
index `idx`. -/
def validateAdditionalRoutingRules (d : backendSvcDeployer) :
    List RoutingRule → Nat → Trace → Option GoError × Trace
  | [], _, t => (none, t)
  | rule :: rest, idx, t =>
    match validateRuntimeRoutingRule d rule t with
    | (some err, t1) =>
      (some (.wrapf "validate ALB runtime configuration for \"http.additional_rules[%d]\": %w"
        [.int idx] err), t1)
    | (none, t1) => validateAdditionalRoutingRules d rest (idx + 1) t1

/-- The method `validateALBRuntime`. -/
def validateALBRuntime (d : backendSvcDeployer) (t : Trace) : Option GoError × Trace :=
  let t0 := t ++ [Event.validateALBRuntime]
  if d.backendMft.HTTP.IsEmpty then (none, t0)
  else
    match validateImportedALBConfig d t0 with
    | (some err, t1) =>
      (some (.wrapf "validate imported ALB configuration for \"http\": %w" [] err), t1)
    | (none, t1) =>
      match validateRuntimeRoutingRule d d.backendMft.HTTP.Main t1 with
      | (some err, t2) =>
        (some (.wrapf "validate ALB runtime configuration for \"http\": %w" [] err), t2)
      | (none, t2) =>
        validateAdditionalRoutingRules d d.backendMft.HTTP.AdditionalRoutingRules 0 t2

/-! ## Stack configuration and entry points -/

/-- The tail of `stackConfiguration` (from `var conf` on): choose the builder,
build, and wrap the result with the template overrider. -/
def stackConfigurationBuild (d : backendSvcDeployer) (rc : RuntimeConfig)
    (opts : List BackendServiceOption) (t : Trace) :
    Except GoError svcStackConfigurationOutput × Trace :=
  match d.newStack with
  | some newStack =>
    (.ok { conf := .WrapWithTemplateOverrider (newStack t) d.base.overrider,
           svcUpdater := d.base.svcUpdater },
     t ++ [Event.newStack])
  | none =>
    let t1 := t ++ [Event.NewBackendService opts]
    match d.base.NewBackendService t
        { App := d.base.app
          EnvManifest := d.base.envConfig
          Manifest := d.backendMft
          RawManifest := d.base.rawMft
          ArtifactBucketName := d.base.resources.S3Bucket
          ArtifactKey := d.base.resources.KMSKeyARN
          RuntimeConfig := rc
          Addons := d.base.addons } opts with
    | .error err => (.error (.wrapf "create stack configuration: %w" [] err), t1)
    | .ok conf =>
      (.ok { conf := .WrapWithTemplateOverrider conf d.base.overrider,
             svcUpdater := d.base.svcUpdater }, t1)

/-- The method `stackConfiguration`. -/
def stackConfiguration (d : backendSvcDeployer) (input : StackRuntimeConfiguration)
    (t : Trace) : Except GoError svcStackConfigurationOutput × Trace :=
  let t1 := t ++ [Event.runtimeConfig input]
  match d.base.runtimeConfig t input with
  | .error err => (.error err, t1)
  | .ok rc =>
    match validateALBRuntime d t1 with
    | (some err, t2) => (.error err, t2)
    | (none, t2) =>
      match d.backendMft.HTTP.ImportedALB with
      | some _ =>
        let nameOrARN := StringValue d.backendMft.HTTP.ImportedALB
        let t3 := t2 ++ [Event.LoadBalancer nameOrARN]
        match d.elbGetter t2 nameOrARN with
        | .error err => (.error err, t3)
        | .ok lb => stackConfigurationBuild d rc [.WithImportedInternalALB lb] t3
      | none => stackConfigurationBuild d rc [] t2

/-- The input of `GenerateCloudFormationTemplate`. -/
structure GenerateCloudFormationTemplateInput where
  StackRuntimeConfiguration : StackRuntimeConfiguration

/-- The input of `DeployWorkload`. -/
structure DeployWorkloadInput where
  StackRuntimeConfiguration : StackRuntimeConfiguration
  Options : String

/-- The non-nil values of the interface `ActionRecommender` returned by
`DeployWorkload`. -/
inductive ActionRecommender
  | noopActionRecommender
  deriving DecidableEq, Repr

/-- The method `GenerateCloudFormationTemplate`. -/
def GenerateCloudFormationTemplate (d : backendSvcDeployer)
    (input : GenerateCloudFormationTemplateInput) (t : Trace) : Except GoError String × Trace :=
  match stackConfiguration d input.StackRuntimeConfiguration t with
  | (.error err, t1) => (.error err, t1)
  | (.ok output, t1) =>
    (d.base.generateCloudFormationTemplate t1 output.conf,
     t1 ++ [Event.generateCloudFormationTemplate output.conf])

/-- The method `DeployWorkload`. -/
def DeployWorkload (d : backendSvcDeployer) (input : DeployWorkloadInput) (t : Trace) :
    Except GoError ActionRecommender × Trace :=
  match stackConfiguration d input.StackRuntimeConfiguration t with
  | (.error err, t1) => (.error err, t1)
  | (.ok stackConfigOutput, t1) =>
    let t2 := t1 ++ [Event.deploy input.Options stackConfigOutput]
    match d.base.deploy t1 input.Options stackConfigOutput with
    | some err => (.error err, t2)
    | none => (.ok .noopActionRecommender, t2)

/-! ## Construction -/

/-- The dynamic type of the interface value `in.Mft`: a
`*manifest.BackendService`, or a value of another kind (`nil` included). -/
inductive WorkloadManifest
  | BackendService (mft : BackendService)
  | other (kind : String)

/-- The `WorkloadDeployerInput`; `customResources` names the function stored in
that field and `session` stands for the remaining fields. -/
structure WorkloadDeployerInput where
  Mft : WorkloadManifest
  customResources : String
  session : String

/-- Modelled from the spec: the constant `manifestinfo.BackendServiceType`,
declared in package `manifestinfo`; the kind of a backend service. -/
def BackendServiceType : String := "Backend Service"

/-- The collaborators of `NewBackendDeployer`: the base constructor
`newSvcDeployer` and the client constructors `elbv2.New` and `acm.New`, the
latter two applied to the environment session of the base deployer. -/
structure Constructors where
  newSvcDeployer : WorkloadDeployerInput → Except GoError svcDeployer
  elbv2New : svcDeployer → Trace → String → Except GoError LoadBalancer
  acmNew : svcDeployer → Trace → List String → List String → Option GoError

/-- The constructor `NewBackendDeployer`. -/
def NewBackendDeployer (c : Constructors) (input : WorkloadDeployerInput) :
    Except GoError backendSvcDeployer :=
  let input1 := { input with customResources := "backendCustomResources" }
  match c.newSvcDeployer input1 with
  | .error err => .error err
  | .ok svcDeployer =>
    match input1.Mft with
    | .other _ => .error (.errorf "manifest is not of type %s" [.str BackendServiceType])
    | .BackendService bsMft =>
      .ok { base := svcDeployer
            elbGetter := c.elbv2New svcDeployer
            backendMft := bsMft
            aliasCertValidator := c.acmNew svcDeployer
            newStack := none }


/-! ## Sample inputs -/

/-- A base deployer for service `api` in environment `test` whose environment
imports the private certificates `certs` and whose collaborators all succeed. -/
def sampleBase (certs : List String) : svcDeployer where
  name := "api"
  app := "shop"
  env := { Name := "test" }
  envConfig := { HTTPConfig := { Private := { Certificates := certs } } }
  rawMft := "raw"
  resources := { S3Bucket := "bucket", KMSKeyARN := "key" }
  addons := "addons"
  overrider := "overrider"
  svcUpdater := "updater"
  runtimeConfig := fun _ input => .ok { id := input.id }
  NewBackendService := fun _ _ _ => .ok (.built "backend")
  deploy := fun _ _ _ => none
  generateCloudFormationTemplate := fun _ _ => .ok "template"

/-- A routing rule in use that declares no alias. -/
def ruleNoAlias : RoutingRule where
  IsEmpty := false
  Alias := { IsEmpty := true, ToStringSlice := .ok [] }

/-- A routing rule in use with the alias list `aliases`. -/
def ruleWithAlias (aliases : List String) : RoutingRule where
  IsEmpty := false
  Alias := { IsEmpty := false, ToStringSlice := .ok aliases }

/-- A lookup that answers every call with the same descriptor. -/
def constLookup (lb : LoadBalancer) : Trace → String → Except GoError LoadBalancer :=
  fun _ _ => .ok lb

/-- A deployer over `sampleBase certs` for a manifest named `api` with a
non-empty `http` block: imported ALB `imported`, main rule `main`, additional
rules `additional`, lookup `lookup` and alias validator `validator`. -/
def sampleDeployer (certs : List String) (imported : Option String) (main : RoutingRule)
    (additional : List RoutingRule) (lookup : Trace → String → Except GoError LoadBalancer)
    (validator : Trace → List String → List String → Option GoError) : backendSvcDeployer where
  base := sampleBase certs
  elbGetter := lookup
  backendMft :=
    { Name := some "api"
      HTTP := { IsEmpty := false, ImportedALB := imported, Main := main,
                AdditionalRoutingRules := additional } }
  aliasCertValidator := validator
  newStack := none

/-- A routing rule that is not in use: the zero `manifest.RoutingRule`. -/
def ruleEmpty : RoutingRule where
  IsEmpty := true
  Alias := { IsEmpty := true, ToStringSlice := .ok [] }

/-- A deployer over `sampleBase certs` for a manifest named `api` whose `http`
block is the zero block: no imported ALB, a main rule not in use and no
additional rule. -/
def emptyHTTPDeployer (certs : List String)
    (lookup : Trace → String → Except GoError LoadBalancer)
    (validator : Trace → List String → List String → Option GoError) : backendSvcDeployer where
  base := sampleBase certs
  elbGetter := lookup
  backendMft :=
    { Name := some "api"
      HTTP := { IsEmpty := true, ImportedALB := none, Main := ruleEmpty,
                AdditionalRoutingRules := [] } }
  aliasCertValidator := validator
  newStack := none

/-- A lookup that fails every call. -/
def failingLookup : Trace → String → Except GoError LoadBalancer :=
  fun _ _ => .error (.external "lookup failed")

/-- A validator that accepts the aliases only when each of them is one of the
certificates. -/
def sampleValidator : Trace → List String → List String → Option GoError :=
  fun _ aliases certs =>
    if aliases.all (fun a => certs.contains a) then none
    else some (.external "alias not covered")

/-- An internal load balancer with the given listeners. -/
def internalALB (listeners : List Listener) : LoadBalancer where
  ARN := "arn:alb"
  Scheme := "internal"
  Listeners := listeners

/-! ## Notions used to state the properties -/

/-- Number of listeners whose protocol is `protocol`. -/
def countProtocol (protocol : String) (listeners : List Listener) : Nat :=
  listeners.countP (fun listener => listener.Protocol = protocol)

/-- The listener rule of `validateImportedALBConfig`: one listener, or at least
two listeners of which exactly one is `HTTP` and exactly one is `HTTPS`. -/
def listenerRule (alb : LoadBalancer) : Prop :=
  alb.Listeners.length = 1 ∨
    (2 ≤ alb.Listeners.length ∧ countProtocol "HTTP" alb.Listeners = 1 ∧
      countProtocol "HTTPS" alb.Listeners = 1)

instance (alb : LoadBalancer) : Decidable (listenerRule alb) := by
  unfold listenerRule
  infer_instance

/-- The rules of a list pass `validateRuntimeRoutingRule` one after the other,
starting from trace `t`; the result is the trace after the last rule. -/
def rulesPass (d : backendSvcDeployer) : List RoutingRule → Trace → Option Trace
  | [], t => some t
  | rule :: rest, t =>
    match validateRuntimeRoutingRule d rule t with
    | (none, t1) => rulesPass d rest t1
    | (some _, _) => none

/-- The event is a call of the load-balancer lookup. -/
def Event.isLoadBalancer : Event → Bool
  | .LoadBalancer _ => true
  | _ => false

/-- The event is a call of the alias/certificate validator. -/
def Event.isValidateCertAliases : Event → Bool
  | .ValidateCertAliases _ _ => true
  | _ => false

/-- The event is a call of a stack builder: `d.newStack` or
`stack.NewBackendService`. -/
def Event.isBuilder : Event → Bool
  | .newStack => true
  | .NewBackendService _ => true
  | _ => false

/-- The event is a call that must come after a successful validation: a stack
builder, `d.deploy` or `d.generateCloudFormationTemplate`. -/
def Event.isGated : Event → Bool
  | .newStack => true
  | .NewBackendService _ => true
  | .deploy _ _ => true
  | .generateCloudFormationTemplate _ => true
  | _ => false

/-- A base deployer like `sampleBase certs` whose `runtimeConfig` fails. -/
def failingRuntimeBase (certs : List String) : svcDeployer :=
  { sampleBase certs with
    runtimeConfig := fun _ _ => .error (.external "get service discovery endpoint") }

/-- A lookup that answers `first` as long as no lookup has been made, and
`second` afterwards. -/
def changingLookup (first second : Except GoError LoadBalancer) :
    Trace → String → Except GoError LoadBalancer :=
  fun t _ => if t.any Event.isLoadBalancer then second else first

/-- The error of a result, if it is one. -/
def errorOf {α : Type} : Except GoError α → Option GoError
  | .error e => some e
  | .ok _ => none

/-- Constructors whose base constructor `newSvcDeployer` fails. -/
def failingConstructors : Constructors where
  newSvcDeployer := fun _ => .error (.external "create default session")
  elbv2New := fun _ => failingLookup
  acmNew := fun _ => sampleValidator

/-! ## Lemmas on the listener tally -/

theorem foldl_tally (listeners : List Listener) (q : Nat × Nat) :
    listeners.foldl
      (fun q listener =>
        if listener.Protocol = "HTTP" then (q.1 + 1, q.2)
        else if listener.Protocol = "HTTPS" then (q.1, q.2 + 1)
        else q) q
      = (q.1 + countProtocol "HTTP" listeners, q.2 + countProtocol "HTTPS" listeners) := by
  induction listeners generalizing q with
  | nil => simp [countProtocol]
  | cons l ls ih =>
    rw [List.foldl_cons, ih]
    by_cases h1 : l.Protocol = "HTTP"
    · have h2 : l.Protocol ≠ "HTTPS" := by rw [h1]; decide
      simp [countProtocol, List.countP_cons, h1]
      omega
    · by_cases h2 : l.Protocol = "HTTPS"
      · simp [countProtocol, List.countP_cons, h1, h2]
        omega
      · simp [countProtocol, List.countP_cons, h1, h2]

theorem tallyListeners_eq (listeners : List Listener) :
    tallyListeners listeners
      = (countProtocol "HTTP" listeners, countProtocol "HTTPS" listeners) := by
  unfold tallyListeners
  rw [foldl_tally]
  simp

/-! ## Imported load balancer -/

theorem validateImportedALBConfig_internal_verdict (d : backendSvcDeployer) (t : Trace)
    (nameOrARN : String) (alb : LoadBalancer)
    (hImported : d.backendMft.HTTP.ImportedALB = some nameOrARN)
    (hLookup : d.elbGetter t nameOrARN = .ok alb)
    (hScheme : alb.Scheme = "internal") :
    (validateImportedALBConfig d t).1 = none ↔
      (alb.Listeners.length = 1 ∨
        (2 ≤ alb.Listeners.length ∧ countProtocol "HTTP" alb.Listeners = 1 ∧
          countProtocol "HTTPS" alb.Listeners = 1)) := by
  unfold validateImportedALBConfig
  simp only [hImported, StringValue, hLookup, hScheme, tallyListeners_eq]
  by_cases h0 : alb.Listeners.length = 0
  · simp [h0]
  · by_cases h1 : alb.Listeners.length = 1
    · simp [h1]
    · have h2 : 2 ≤ alb.Listeners.length := by omega
      by_cases hq : countProtocol "HTTP" alb.Listeners ≠ 1 ∨
          countProtocol "HTTPS" alb.Listeners ≠ 1
      · simp only [h0, h1, hq]
        simp
        intro _ a b
        rcases hq with hq | hq
        · exact hq a
        · exact hq b
      · simp only [h0, h1, hq]
        simp
        push_neg at hq
        exact ⟨h2, hq.1, hq.2⟩

/-- C1: when the lookup of the imported load balancer succeeds with an
`internal` descriptor, `validateImportedALBConfig` returns no error exactly
when the descriptor has one listener, or at least two listeners of which
exactly one is `HTTP` and exactly one is `HTTPS` (listeners of other protocols
are not counted). Zero listeners fail, `[HTTP, HTTPS]` and `[HTTPS, HTTP]`
pass, `[HTTP, HTTP]` and `[HTTPS, HTTPS]` fail, and an `internal` descriptor
with the same listeners in another order gets the same verdict. -/
theorem validateImportedALBConfig_internal_iff (d : backendSvcDeployer) (t : Trace)
    (nameOrARN : String) (alb : LoadBalancer)
    (hImported : d.backendMft.HTTP.ImportedALB = some nameOrARN)
    (hLookup : d.elbGetter t nameOrARN = .ok alb)
    (hScheme : alb.Scheme = "internal") :
    ((validateImportedALBConfig d t).1 = none ↔
      (alb.Listeners.length = 1 ∨
        (2 ≤ alb.Listeners.length ∧ countProtocol "HTTP" alb.Listeners = 1 ∧
          countProtocol "HTTPS" alb.Listeners = 1))) ∧
    (alb.Listeners = [] → (validateImportedALBConfig d t).1 ≠ none) ∧
    (∀ l, alb.Listeners = [l] → (validateImportedALBConfig d t).1 = none) ∧
    (∀ p q, alb.Listeners = [⟨"HTTP", p⟩, ⟨"HTTPS", q⟩] →
      (validateImportedALBConfig d t).1 = none) ∧
    (∀ p q, alb.Listeners = [⟨"HTTPS", p⟩, ⟨"HTTP", q⟩] →
      (validateImportedALBConfig d t).1 = none) ∧
    (∀ p q, alb.Listeners = [⟨"HTTP", p⟩, ⟨"HTTP", q⟩] →
      (validateImportedALBConfig d t).1 ≠ none) ∧
    (∀ p q, alb.Listeners = [⟨"HTTPS", p⟩, ⟨"HTTPS", q⟩] →
      (validateImportedALBConfig d t).1 ≠ none) ∧
    (∀ (d2 : backendSvcDeployer) (t2 : Trace) (name2 : String) (alb2 : LoadBalancer),
      d2.backendMft.HTTP.ImportedALB = some name2 → d2.elbGetter t2 name2 = .ok alb2 →
      alb2.Scheme = "internal" → alb2.Listeners.Perm alb.Listeners →
      ((validateImportedALBConfig d2 t2).1 = none ↔ (validateImportedALBConfig d t).1 = none)) := by
  have key := validateImportedALBConfig_internal_verdict d t nameOrARN alb hImported hLookup hScheme
  refine ⟨key, ?_, ?_, ?_, ?_, ?_, ?_, ?_⟩
  · intro h; rw [Ne, key, h]; simp [countProtocol]
  · intro l h; rw [key, h]; simp
  · intro p q h; rw [key, h]; simp [countProtocol]
  · intro p q h; rw [key, h]; simp [countProtocol]
  · intro p q h; rw [Ne, key, h]; simp [countProtocol]
  · intro p q h; rw [Ne, key, h]; simp [countProtocol]
  · intro d2 t2 name2 alb2 hI2 hL2 hS2 hp
    rw [key, validateImportedALBConfig_internal_verdict d2 t2 name2 alb2 hI2 hL2 hS2]
    simp only [countProtocol, hp.length_eq, hp.countP_eq]

/-- Witness for C1: an internal load balancer with listeners `HTTPS:443` and
`HTTP:80`. -/
theorem validateImportedALBConfig_internal_iff_witness :
    (validateImportedALBConfig
      (sampleDeployer [] (some "my-alb") ruleNoAlias []
        (constLookup (internalALB [⟨"HTTPS", 443⟩, ⟨"HTTP", 80⟩])) (fun _ _ _ => none))
      []).1 = none :=
  (validateImportedALBConfig_internal_iff
    (sampleDeployer [] (some "my-alb") ruleNoAlias []
      (constLookup (internalALB [⟨"HTTPS", 443⟩, ⟨"HTTP", 80⟩])) (fun _ _ _ => none))
    [] "my-alb" (internalALB [⟨"HTTPS", 443⟩, ⟨"HTTP", 80⟩]) rfl rfl rfl).2.2.2.2.1 443 80 rfl


/-- C2: when the manifest references an imported load balancer and the lookup
returns a descriptor whose scheme is not `internal`, `validateImportedALBConfig`
fails, whatever the listeners, with the error whose operands are the ARN of the
descriptor and the service name and whose text asks for the `internal` scheme;
with a non-empty `http` block `validateALBRuntime` fails with that error
wrapped. -/
theorem validateImportedALBConfig_scheme_not_internal (d : backendSvcDeployer)
    (nameOrARN : String) (alb : LoadBalancer)
    (hImported : d.backendMft.HTTP.ImportedALB = some nameOrARN)
    (hScheme : alb.Scheme ≠ "internal") :
    (∀ t, d.elbGetter t nameOrARN = .ok alb →
      validateImportedALBConfig d t =
        (some (.errorf
          "imported ALB %q for Backend Service %q should have \"internal\" Scheme value"
          [.str alb.ARN, .str (StringValue d.backendMft.Name)]),
         t ++ [Event.LoadBalancer nameOrARN])) ∧
    (∀ t, d.backendMft.HTTP.IsEmpty = false →
      d.elbGetter (t ++ [Event.validateALBRuntime]) nameOrARN = .ok alb →
      validateALBRuntime d t =
        (some (.wrapf "validate imported ALB configuration for \"http\": %w" []
          (.errorf
            "imported ALB %q for Backend Service %q should have \"internal\" Scheme value"
            [.str alb.ARN, .str (StringValue d.backendMft.Name)])),
         t ++ [Event.validateALBRuntime] ++ [Event.LoadBalancer nameOrARN])) := by
  have h1 : ∀ t, d.elbGetter t nameOrARN = .ok alb →
      validateImportedALBConfig d t =
        (some (.errorf
          "imported ALB %q for Backend Service %q should have \"internal\" Scheme value"
          [.str alb.ARN, .str (StringValue d.backendMft.Name)]),
         t ++ [Event.LoadBalancer nameOrARN]) := by
    intro t hLookup
    unfold validateImportedALBConfig
    simp only [hImported, StringValue, hLookup]
    rw [if_pos hScheme]
  refine ⟨h1, ?_⟩
  intro t hHTTP hLookup
  unfold validateALBRuntime
  simp only [hHTTP, h1 _ hLookup]
  simp

/-- Witness for C2: an `internet-facing` load balancer with listeners `HTTP`
and `HTTPS`. -/
theorem validateImportedALBConfig_scheme_not_internal_witness :
    (validateALBRuntime
      (sampleDeployer [] (some "my-alb") ruleNoAlias []
        (constLookup ⟨"arn:alb", "internet-facing", [⟨"HTTP", 80⟩, ⟨"HTTPS", 443⟩]⟩)
        (fun _ _ _ => none)) []).1 =
      some (.wrapf "validate imported ALB configuration for \"http\": %w" []
        (.errorf "imported ALB %q for Backend Service %q should have \"internal\" Scheme value"
          [.str "arn:alb", .str "api"])) :=
  congrArg Prod.fst
    ((validateImportedALBConfig_scheme_not_internal
      (sampleDeployer [] (some "my-alb") ruleNoAlias []
        (constLookup ⟨"arn:alb", "internet-facing", [⟨"HTTP", 80⟩, ⟨"HTTPS", 443⟩]⟩)
        (fun _ _ _ => none))
      "my-alb" ⟨"arn:alb", "internet-facing", [⟨"HTTP", 80⟩, ⟨"HTTPS", 443⟩]⟩ rfl
      (by decide)).2 [] rfl rfl)

/-- C3: when `HTTP.IsEmpty()` is true, `validateALBRuntime` returns no error and
the only event it adds to the trace is its own entry marker: neither the
load-balancer lookup nor the alias/certificate validator is called, whatever
the imported certificates and the collaborators are. -/
theorem validateALBRuntime_empty_http (d : backendSvcDeployer) (t : Trace)
    (hHTTP : d.backendMft.HTTP.IsEmpty = true) :
    validateALBRuntime d t = (none, t ++ [Event.validateALBRuntime]) ∧
    (∀ e ∈ (validateALBRuntime d t).2.drop t.length,
      e.isLoadBalancer = false ∧ e.isValidateCertAliases = false) := by
  have h : validateALBRuntime d t = (none, t ++ [Event.validateALBRuntime]) := by
    unfold validateALBRuntime
    simp [hHTTP]
  refine ⟨h, ?_⟩
  rw [h]
  simp [Event.isLoadBalancer, Event.isValidateCertAliases]


/-- Witness for C3: the zero `http` block in an environment with an imported
certificate, with a failing lookup and a rejecting validator. -/
theorem validateALBRuntime_empty_http_witness :
    validateALBRuntime
      (emptyHTTPDeployer ["cert"] failingLookup (fun _ _ _ => some (.external "rejected"))) []
      = (none, [Event.validateALBRuntime]) :=
  (validateALBRuntime_empty_http
    (emptyHTTPDeployer ["cert"] failingLookup (fun _ _ _ => some (.external "rejected")))
    [] rfl).1

/-! ## Routing rules -/

/-- C4: a non-empty routing rule with an empty alias fails exactly when the
environment has at least one imported private certificate; the error is then
the typed `errSvcWithNoALBAliasDeployingToEnvWithImportedCerts` carrying the
service name and the environment name; in both cases the trace is unchanged,
so the alias/certificate validator is not called. An empty rule passes with
the trace unchanged. -/
theorem validateRuntimeRoutingRule_no_alias (d : backendSvcDeployer) (rule : RoutingRule)
    (t : Trace) (hRule : rule.IsEmpty = false) (hAlias : rule.Alias.IsEmpty = true) :
    ((validateRuntimeRoutingRule d rule t).1 ≠ none ↔
      1 ≤ d.base.envConfig.HTTPConfig.Private.Certificates.length) ∧
    (1 ≤ d.base.envConfig.HTTPConfig.Private.Certificates.length →
      (validateRuntimeRoutingRule d rule t).1 =
        some (.errSvcWithNoALBAliasDeployingToEnvWithImportedCerts d.base.name d.base.env.Name)) ∧
    (validateRuntimeRoutingRule d rule t).2 = t ∧
    (∀ (empty : RoutingRule) (t0 : Trace), empty.IsEmpty = true →
      validateRuntimeRoutingRule d empty t0 = (none, t0)) := by
  refine ⟨?_, ?_, ?_, ?_⟩
  · unfold validateRuntimeRoutingRule
    by_cases hc : d.base.envConfig.HTTPConfig.Private.Certificates.length = 0
    · simp [hRule, hAlias, hc]
    · simp [hRule, hAlias, hc]
      omega
  · intro hc
    have hc0 : ¬ d.base.envConfig.HTTPConfig.Private.Certificates.length = 0 := by omega
    unfold validateRuntimeRoutingRule
    simp [hRule, hAlias, hc0]
  · unfold validateRuntimeRoutingRule
    by_cases hc : d.base.envConfig.HTTPConfig.Private.Certificates.length = 0
    · simp [hRule, hAlias, hc]
    · simp [hRule, hAlias, hc]
  · intro empty t0 he
    unfold validateRuntimeRoutingRule
    simp [he]

/-- Witness for C4: a rule without alias in an environment with one imported
certificate. -/
theorem validateRuntimeRoutingRule_no_alias_witness :
    validateRuntimeRoutingRule
      (sampleDeployer ["cert"] none ruleNoAlias [] failingLookup (fun _ _ _ => none))
      ruleNoAlias [] =
      (some (.errSvcWithNoALBAliasDeployingToEnvWithImportedCerts "api" "test"), []) :=
  Prod.ext
    ((validateRuntimeRoutingRule_no_alias
      (sampleDeployer ["cert"] none ruleNoAlias [] failingLookup (fun _ _ _ => none))
      ruleNoAlias [] rfl rfl).2.1 (by decide))
    ((validateRuntimeRoutingRule_no_alias
      (sampleDeployer ["cert"] none ruleNoAlias [] failingLookup (fun _ _ _ => none))
      ruleNoAlias [] rfl rfl).2.2.1)

/-- C5: for a non-empty routing rule with a non-empty alias: without imported
certificates the rule fails and the trace is unchanged (the validator is not
called); with imported certificates the rule passes exactly when the alias list
of the rule is obtained and the validator accepts it against the imported
private certificates of the environment; the validator is then called once,
with that list and those certificates, and on rejection the returned error
wraps the error of the validator. When the alias list cannot be obtained the
rule fails and the validator is not called. -/
theorem validateRuntimeRoutingRule_alias (d : backendSvcDeployer) (rule : RoutingRule)
    (t : Trace) (hRule : rule.IsEmpty = false) (hAlias : rule.Alias.IsEmpty = false) :
    (d.base.envConfig.HTTPConfig.Private.Certificates.length = 0 →
      validateRuntimeRoutingRule d rule t =
        (some (.errorf "cannot specify \"alias\" in an environment without imported certs" []),
         t)) ∧
    (d.base.envConfig.HTTPConfig.Private.Certificates.length ≠ 0 →
      ((validateRuntimeRoutingRule d rule t).1 = none ↔
        ∃ aliases, rule.Alias.ToStringSlice = .ok aliases ∧
          d.aliasCertValidator t aliases d.base.envConfig.HTTPConfig.Private.Certificates
            = none) ∧
      (∀ aliases, rule.Alias.ToStringSlice = .ok aliases →
        (validateRuntimeRoutingRule d rule t).2 =
          t ++ [Event.ValidateCertAliases aliases
            d.base.envConfig.HTTPConfig.Private.Certificates]) ∧
      (∀ aliases err, rule.Alias.ToStringSlice = .ok aliases →
        d.aliasCertValidator t aliases d.base.envConfig.HTTPConfig.Private.Certificates
          = some err →
        (validateRuntimeRoutingRule d rule t).1 =
          some (.wrapf "validate aliases against the imported certificate for env %s: %w"
            [.str d.base.env.Name] err) ∧
        (validateRuntimeRoutingRule d rule t).1.bind GoError.unwrap = some err) ∧
      (∀ err, rule.Alias.ToStringSlice = .error err →
        validateRuntimeRoutingRule d rule t =
          (some (.wrapf "convert aliases to string slice: %w" [] err), t))) := by
  refine ⟨?_, ?_⟩
  · intro hc
    unfold validateRuntimeRoutingRule
    simp [hRule, hAlias, hc]
  · intro hc
    have hne : d.base.envConfig.HTTPConfig.Private.Certificates ≠ [] := by
      intro h
      exact hc (by rw [h]; rfl)
    unfold validateRuntimeRoutingRule
    simp only [hRule, hAlias, hc]
    cases hS : rule.Alias.ToStringSlice with
    | error e0 => simp [hne]
    | ok aliases =>
      cases hv : d.aliasCertValidator t aliases
          d.base.envConfig.HTTPConfig.Private.Certificates with
      | none =>
        simp [hne, hv]
        intro a err ha
        subst ha
        rw [hv]
        simp
      | some e =>
        simp [GoError.unwrap, hne, hv]
        intro a err ha h
        subst ha
        rw [hv] at h
        exact Option.some.inj h

/-- Witness for C5: alias `api.example.com` against the imported certificate
`other.example.com` is rejected by the validator. -/
theorem validateRuntimeRoutingRule_alias_witness :
    (validateRuntimeRoutingRule
      (sampleDeployer ["other.example.com"] none (ruleWithAlias ["api.example.com"]) []
        failingLookup sampleValidator)
      (ruleWithAlias ["api.example.com"]) []).1 =
      some (.wrapf "validate aliases against the imported certificate for env %s: %w"
        [.str "test"] (.external "alias not covered")) :=
  ((((validateRuntimeRoutingRule_alias
    (sampleDeployer ["other.example.com"] none (ruleWithAlias ["api.example.com"]) []
      failingLookup sampleValidator)
    (ruleWithAlias ["api.example.com"]) [] rfl rfl).2
      (by decide)).2.2.1) ["api.example.com"] (.external "alias not covered") rfl
        (by decide)).1


/-! ## Order of the checks -/

theorem validateAdditionalRoutingRules_none_iff (d : backendSvcDeployer)
    (rules : List RoutingRule) (idx : Nat) (t t' : Trace) :
    validateAdditionalRoutingRules d rules idx t = (none, t') ↔ rulesPass d rules t = some t' := by
  induction rules generalizing idx t with
  | nil => simp [validateAdditionalRoutingRules, rulesPass]
  | cons r rest ih =>
    unfold validateAdditionalRoutingRules rulesPass
    rcases hr : validateRuntimeRoutingRule d r t with ⟨_ | e, t1⟩
    · simpa using ih (idx + 1) t1
    · simp

theorem validateAdditionalRoutingRules_some_iff (d : backendSvcDeployer)
    (rules : List RoutingRule) (idx : Nat) (t t' : Trace) (err : GoError) :
    validateAdditionalRoutingRules d rules idx t = (some err, t') ↔
      ∃ k rule t3 e, rules[k]? = some rule ∧ rulesPass d (rules.take k) t = some t3 ∧
        validateRuntimeRoutingRule d rule t3 = (some e, t') ∧
        err = .wrapf "validate ALB runtime configuration for \"http.additional_rules[%d]\": %w"
          [.int (idx + k)] e := by
  induction rules generalizing idx t with
  | nil => simp [validateAdditionalRoutingRules]
  | cons r rest ih =>
    unfold validateAdditionalRoutingRules
    rcases hr : validateRuntimeRoutingRule d r t with ⟨_ | e0, t1⟩
    · simp only
      rw [ih (idx + 1) t1]
      constructor
      · rintro ⟨k, rule, t3, e, hk, hp, hv, he⟩
        refine ⟨k + 1, rule, t3, e, by simpa using hk, ?_, hv, ?_⟩
        · simp [rulesPass, hr, hp]
        · rw [he, Nat.add_assoc, Nat.add_comm 1 k]
      · rintro ⟨k, rule, t3, e, hk, hp, hv, he⟩
        cases k with
        | zero =>
          simp only [List.getElem?_cons_zero, Option.some.injEq] at hk
          simp only [List.take_zero, rulesPass, Option.some.injEq] at hp
          subst hk hp
          rw [hr] at hv
          simp at hv
        | succ k =>
          refine ⟨k, rule, t3, e, by simpa using hk, ?_, hv, ?_⟩
          · simpa [rulesPass, hr] using hp
          · rw [he, Nat.add_assoc, Nat.add_comm 1 k]
    · simp only
      constructor
      · intro h
        simp only [Prod.mk.injEq, Option.some.injEq] at h
        refine ⟨0, r, t, e0, by simp, by simp [rulesPass], ?_, ?_⟩
        · rw [hr, h.2]
        · rw [← h.1]; simp
      · rintro ⟨k, rule, t3, e, hk, hp, hv, he⟩
        cases k with
        | zero =>
          simp only [List.getElem?_cons_zero, Option.some.injEq] at hk
          simp only [List.take_zero, rulesPass, Option.some.injEq] at hp
          subst hk hp
          rw [hr] at hv
          simp only [Prod.mk.injEq, Option.some.injEq] at hv
          rw [he, hv.1, hv.2]
          simp
        | succ k =>
          simp [rulesPass, hr] at hp

/-- C6: with a non-empty `http` block, `validateALBRuntime` runs the imported
ALB check, then the main routing rule, then the additional routing rules by
increasing index, each from the trace left by the previous one. It returns no
error exactly when all of them pass. It returns an error exactly when a first
check fails after all earlier ones passed; the error then wraps the error of
that check under the format naming `http` (imported ALB or main rule) or
`http.additional_rules[k]` with `k` the index of the failing rule, and the
final trace is the trace left by the failing check, so nothing is called after
it. -/
theorem validateALBRuntime_first_failure (d : backendSvcDeployer) (t : Trace)
    (hHTTP : d.backendMft.HTTP.IsEmpty = false) :
    (∀ t', validateALBRuntime d t = (none, t') ↔
      ∃ t1 t2, validateImportedALBConfig d (t ++ [Event.validateALBRuntime]) = (none, t1) ∧
        validateRuntimeRoutingRule d d.backendMft.HTTP.Main t1 = (none, t2) ∧
        rulesPass d d.backendMft.HTTP.AdditionalRoutingRules t2 = some t') ∧
    (∀ err t', validateALBRuntime d t = (some err, t') ↔
      ((∃ e, validateImportedALBConfig d (t ++ [Event.validateALBRuntime]) = (some e, t') ∧
          err = .wrapf "validate imported ALB configuration for \"http\": %w" [] e) ∨
        (∃ t1 e, validateImportedALBConfig d (t ++ [Event.validateALBRuntime]) = (none, t1) ∧
          validateRuntimeRoutingRule d d.backendMft.HTTP.Main t1 = (some e, t') ∧
          err = .wrapf "validate ALB runtime configuration for \"http\": %w" [] e) ∨
        (∃ t1 t2 k rule t3 e,
          validateImportedALBConfig d (t ++ [Event.validateALBRuntime]) = (none, t1) ∧
          validateRuntimeRoutingRule d d.backendMft.HTTP.Main t1 = (none, t2) ∧
          d.backendMft.HTTP.AdditionalRoutingRules[k]? = some rule ∧
          rulesPass d (d.backendMft.HTTP.AdditionalRoutingRules.take k) t2 = some t3 ∧
          validateRuntimeRoutingRule d rule t3 = (some e, t') ∧
          err = .wrapf
            "validate ALB runtime configuration for \"http.additional_rules[%d]\": %w"
            [.int k] e))) := by
  constructor
  · intro t'
    unfold validateALBRuntime
    simp only [hHTTP]
    rcases ha : validateImportedALBConfig d (t ++ [Event.validateALBRuntime]) with ⟨_ | ea, t1⟩
    · rcases hm : validateRuntimeRoutingRule d d.backendMft.HTTP.Main t1 with ⟨_ | em, t2⟩
      · simp [validateAdditionalRoutingRules_none_iff, hm]
      · simp [hm]
    · simp
  · intro err t'
    unfold validateALBRuntime
    simp only [hHTTP]
    rcases ha : validateImportedALBConfig d (t ++ [Event.validateALBRuntime]) with ⟨_ | ea, t1⟩
    · rcases hm : validateRuntimeRoutingRule d d.backendMft.HTTP.Main t1 with ⟨_ | em, t2⟩
      · simp [validateAdditionalRoutingRules_some_iff, hm]
      · simp [hm]
        constructor
        · rintro ⟨h1, h2⟩
          exact ⟨em, ⟨rfl, h2⟩, h1.symm⟩
        · rintro ⟨e, ⟨h1, h2⟩, h3⟩
          subst h1
          exact ⟨h3.symm, h2⟩
    · simp
      constructor
      · rintro ⟨h1, h2⟩
        exact ⟨ea, ⟨rfl, h2⟩, h1.symm⟩
      · rintro ⟨e, ⟨h1, h2⟩, h3⟩
        subst h1
        exact ⟨h3.symm, h2⟩


/-- Witness for C6: no imported ALB, a passing main rule, and additional rules
of which the first passes and the second and third declare an alias in an
environment without imported certificates; the error names index 1. -/
theorem validateALBRuntime_first_failure_witness :
    validateALBRuntime
      (sampleDeployer [] none ruleNoAlias [ruleNoAlias, ruleWithAlias ["a"], ruleWithAlias ["b"]]
        failingLookup sampleValidator) [] =
      (some (.wrapf "validate ALB runtime configuration for \"http.additional_rules[%d]\": %w"
        [.int 1]
        (.errorf "cannot specify \"alias\" in an environment without imported certs" [])),
       [Event.validateALBRuntime]) :=
  ((validateALBRuntime_first_failure
    (sampleDeployer [] none ruleNoAlias [ruleNoAlias, ruleWithAlias ["a"], ruleWithAlias ["b"]]
      failingLookup sampleValidator) [] rfl).2 _ _).mpr
    (Or.inr (Or.inr ⟨[Event.validateALBRuntime], [Event.validateALBRuntime], 1,
      ruleWithAlias ["a"], [Event.validateALBRuntime],
      .errorf "cannot specify \"alias\" in an environment without imported certs" [],
      rfl, rfl, rfl, rfl, rfl, rfl⟩))


/-! ## Shape of the traces -/

theorem validateImportedALBConfig_trace (d : backendSvcDeployer) (t : Trace) :
    ∃ new, (validateImportedALBConfig d t).2 = t ++ new ∧
      ∀ e ∈ new, e.isLoadBalancer = true := by
  unfold validateImportedALBConfig
  cases hI : d.backendMft.HTTP.ImportedALB with
  | none => exact ⟨[], by simp⟩
  | some a =>
    refine ⟨[Event.LoadBalancer (StringValue (some a))], ?_, by simp [Event.isLoadBalancer]⟩
    simp only
    split
    · rfl
    · split_ifs <;> rfl

theorem validateRuntimeRoutingRule_trace (d : backendSvcDeployer) (rule : RoutingRule)
    (t : Trace) :
    ∃ new, (validateRuntimeRoutingRule d rule t).2 = t ++ new ∧
      ∀ e ∈ new, e.isValidateCertAliases = true := by
  by_cases hE : rule.IsEmpty = true
  · exact ⟨[], by simp [validateRuntimeRoutingRule, hE]⟩
  · by_cases hA : rule.Alias.IsEmpty = true
    · refine ⟨[], ?_, by simp⟩
      simp only [validateRuntimeRoutingRule, hE, hA]
      split_ifs <;> simp
    · by_cases hc : d.base.envConfig.HTTPConfig.Private.Certificates = []
      · exact ⟨[], by simp [validateRuntimeRoutingRule, hE, hA, hc]⟩
      · cases hS : rule.Alias.ToStringSlice with
        | error err => exact ⟨[], by simp [validateRuntimeRoutingRule, hE, hA, hc, hS]⟩
        | ok aliases =>
          refine ⟨[Event.ValidateCertAliases aliases
            d.base.envConfig.HTTPConfig.Private.Certificates], ?_,
            by simp [Event.isValidateCertAliases]⟩
          simp only [validateRuntimeRoutingRule, hE, hA, hc, hS]
          cases d.aliasCertValidator t aliases
            d.base.envConfig.HTTPConfig.Private.Certificates <;> simp [hc]

theorem validateAdditionalRoutingRules_trace (d : backendSvcDeployer)
    (rules : List RoutingRule) (idx : Nat) (t : Trace) :
    ∃ new, (validateAdditionalRoutingRules d rules idx t).2 = t ++ new ∧
      ∀ e ∈ new, e.isValidateCertAliases = true := by
  induction rules generalizing idx t with
  | nil => exact ⟨[], by simp [validateAdditionalRoutingRules]⟩
  | cons r rest ih =>
    obtain ⟨n1, h1, h1'⟩ := validateRuntimeRoutingRule_trace d r t
    unfold validateAdditionalRoutingRules
    rcases hr : validateRuntimeRoutingRule d r t with ⟨_ | e, t1⟩
    · rw [hr] at h1
      simp only at h1
      obtain ⟨n2, h2, h2'⟩ := ih (idx + 1) t1
      refine ⟨n1 ++ n2, ?_, ?_⟩
      · rw [h2, h1, List.append_assoc]
      · intro e he
        rcases List.mem_append.mp he with h | h
        · exact h1' e h
        · exact h2' e h
    · rw [hr] at h1
      exact ⟨n1, h1, h1'⟩

theorem validateALBRuntime_trace (d : backendSvcDeployer) (t : Trace) :
    ∃ new, (validateALBRuntime d t).2 = t ++ Event.validateALBRuntime :: new ∧
      ∀ e ∈ new, e.isLoadBalancer = true ∨ e.isValidateCertAliases = true := by
  unfold validateALBRuntime
  by_cases hH : d.backendMft.HTTP.IsEmpty = true
  · exact ⟨[], by simp [hH]⟩
  · simp only [hH]
    obtain ⟨n1, h1, h1'⟩ := validateImportedALBConfig_trace d (t ++ [Event.validateALBRuntime])
    rcases ha : validateImportedALBConfig d (t ++ [Event.validateALBRuntime]) with ⟨_ | ea, t1⟩
    · rw [ha] at h1
      simp only at h1
      obtain ⟨n2, h2, h2'⟩ := validateRuntimeRoutingRule_trace d d.backendMft.HTTP.Main t1
      rcases hm : validateRuntimeRoutingRule d d.backendMft.HTTP.Main t1 with ⟨_ | em, t2⟩
      · rw [hm] at h2
        simp only at h2
        obtain ⟨n3, h3, h3'⟩ := validateAdditionalRoutingRules_trace d
          d.backendMft.HTTP.AdditionalRoutingRules 0 t2
        refine ⟨n1 ++ n2 ++ n3, ?_, ?_⟩
        · simp only [hm, Bool.false_eq_true, ↓reduceIte]
          rw [h3, h2, h1]
          simp
        · intro e he
          simp only [List.mem_append] at he
          rcases he with (h | h) | h
          · exact Or.inl (h1' e h)
          · exact Or.inr (h2' e h)
          · exact Or.inr (h3' e h)
      · rw [hm] at h2
        simp only at h2
        refine ⟨n1 ++ n2, ?_, ?_⟩
        · simp only [hm, Bool.false_eq_true, ↓reduceIte]
          rw [h2, h1]
          simp
        · intro e he
          rcases List.mem_append.mp he with h | h
          · exact Or.inl (h1' e h)
          · exact Or.inr (h2' e h)
    · rw [ha] at h1
      simp only at h1
      refine ⟨n1, ?_, fun e he => Or.inl (h1' e he)⟩
      simp only [Bool.false_eq_true, ↓reduceIte]
      rw [h1]
      simp


theorem stackConfigurationBuild_trace (d : backendSvcDeployer) (rc : RuntimeConfig)
    (opts : List BackendServiceOption) (t : Trace) :
    ∃ e, e.isBuilder = true ∧ (stackConfigurationBuild d rc opts t).2 = t ++ [e] := by
  unfold stackConfigurationBuild
  cases d.newStack with
  | some f => exact ⟨Event.newStack, rfl, rfl⟩
  | none =>
    refine ⟨Event.NewBackendService opts, rfl, ?_⟩
    simp only
    split <;> rfl

theorem stackConfiguration_shape (d : backendSvcDeployer) (sr : StackRuntimeConfiguration)
    (t : Trace) (rc : RuntimeConfig) (hrc : d.base.runtimeConfig t sr = .ok rc) :
    ∃ vnew rest,
      (validateALBRuntime d (t ++ [Event.runtimeConfig sr])).2 =
        t ++ Event.runtimeConfig sr :: Event.validateALBRuntime :: vnew ∧
      (∀ e ∈ vnew, e.isLoadBalancer = true ∨ e.isValidateCertAliases = true) ∧
      (stackConfiguration d sr t).2 =
        t ++ Event.runtimeConfig sr :: Event.validateALBRuntime :: (vnew ++ rest) ∧
      (∀ e ∈ rest, e.isLoadBalancer = true ∨ e.isBuilder = true) ∧
      (∀ err, (validateALBRuntime d (t ++ [Event.runtimeConfig sr])).1 = some err →
        stackConfiguration d sr t =
          (.error err, (validateALBRuntime d (t ++ [Event.runtimeConfig sr])).2) ∧
        rest = []) := by
  obtain ⟨vnew, hv, hv'⟩ := validateALBRuntime_trace d (t ++ [Event.runtimeConfig sr])
  unfold stackConfiguration
  simp only [hrc]
  rcases hV : validateALBRuntime d (t ++ [Event.runtimeConfig sr]) with ⟨_ | err, t2⟩
  · rw [hV] at hv
    simp only [List.append_assoc, List.singleton_append] at hv
    cases hI : d.backendMft.HTTP.ImportedALB with
    | none =>
      obtain ⟨e, he, hb⟩ := stackConfigurationBuild_trace d rc [] t2
      refine ⟨vnew, [e], hv, hv', ?_, ?_, ?_⟩
      · simp only
        rw [hb, hv]
        simp
      · intro e' he'
        rw [List.mem_singleton.mp he']
        exact Or.inr he
      · intro err h
        simp at h
    | some a =>
      cases hL : d.elbGetter t2 (StringValue (some a)) with
      | error err =>
        refine ⟨vnew, [Event.LoadBalancer (StringValue (some a))], hv, hv', ?_, ?_, ?_⟩
        · simp only [hL]
          rw [hv]
          simp
        · intro e' he'
          rw [List.mem_singleton.mp he']
          exact Or.inl rfl
        · intro err h
          simp at h
      | ok lb =>
        obtain ⟨e, he, hb⟩ := stackConfigurationBuild_trace d rc [.WithImportedInternalALB lb]
          (t2 ++ [Event.LoadBalancer (StringValue (some a))])
        refine ⟨vnew, [Event.LoadBalancer (StringValue (some a)), e], hv, hv', ?_, ?_, ?_⟩
        · simp only [hL]
          rw [hb, hv]
          simp
        · intro e' he'
          simp only [List.mem_cons, List.mem_singleton, List.not_mem_nil, or_false] at he'
          rcases he' with h | h
          · rw [h]; exact Or.inl rfl
          · rw [h]; exact Or.inr he
        · intro err h
          simp at h
  · rw [hV] at hv
    simp only [List.append_assoc, List.singleton_append] at hv
    refine ⟨vnew, [], hv, hv', ?_, ?_, ?_⟩
    · simp only [List.append_nil]
      exact hv
    · intro e he
      simp at he
    · intro err' h
      simp only [Option.some.injEq] at h
      rw [h]
      exact ⟨rfl, rfl⟩

theorem stackConfiguration_runtimeConfig_error (d : backendSvcDeployer)
    (sr : StackRuntimeConfiguration) (t : Trace) (e : GoError)
    (hrc : d.base.runtimeConfig t sr = .error e) :
    stackConfiguration d sr t = (.error e, t ++ [Event.runtimeConfig sr]) := by
  unfold stackConfiguration
  simp only [hrc]


theorem gate_of_shape (rcEv : Event) (vnew rest : Trace)
    (hrc : rcEv.isGated = false) (hrcne : rcEv ≠ Event.validateALBRuntime)
    (hv : ∀ e ∈ vnew, e.isLoadBalancer = true ∨ e.isValidateCertAliases = true)
    (hr : ∀ e ∈ rest, e.isLoadBalancer = true ∨ e.isGated = true) :
    (rcEv :: Event.validateALBRuntime :: (vnew ++ rest)).count Event.validateALBRuntime = 1 ∧
    (∀ pre e post, rcEv :: Event.validateALBRuntime :: (vnew ++ rest) = pre ++ e :: post →
      e.isGated = true → Event.validateALBRuntime ∈ pre) ∧
    (rest = [] → ∀ e ∈ rcEv :: Event.validateALBRuntime :: (vnew ++ rest), e.isGated = false) := by
  have h1 : Event.validateALBRuntime ∉ vnew := by
    intro h
    rcases hv _ h with h | h <;> simp [Event.isLoadBalancer, Event.isValidateCertAliases] at h
  have h2 : Event.validateALBRuntime ∉ rest := by
    intro h
    rcases hr _ h with h | h <;> simp [Event.isLoadBalancer, Event.isGated] at h
  refine ⟨?_, ?_, ?_⟩
  · rw [List.count_cons_of_ne hrcne.symm, List.count_cons_self, List.count_append,
      List.count_eq_zero.mpr h1, List.count_eq_zero.mpr h2]
  · intro pre e post hsplit hg
    cases pre with
    | nil =>
      simp only [List.nil_append, List.cons.injEq] at hsplit
      rw [← hsplit.1, hrc] at hg
      simp at hg
    | cons a pre =>
      cases pre with
      | nil =>
        simp only [List.cons_append, List.nil_append, List.cons.injEq] at hsplit
        rw [← hsplit.2.1] at hg
        simp [Event.isGated] at hg
      | cons b pre =>
        simp only [List.cons_append, List.cons.injEq] at hsplit
        rw [← hsplit.2.1]
        simp
  · intro hrest e he
    subst hrest
    simp only [List.append_nil, List.mem_cons] at he
    rcases he with h | h | h
    · rw [h]; exact hrc
    · rw [h]; rfl
    · rcases hv _ h with h' | h' <;> cases e <;>
        simp_all [Event.isLoadBalancer, Event.isValidateCertAliases, Event.isGated]

theorem DeployWorkload_shape (d : backendSvcDeployer) (input : DeployWorkloadInput)
    (t : Trace) (rc : RuntimeConfig)
    (hrc : d.base.runtimeConfig t input.StackRuntimeConfiguration = .ok rc) :
    ∃ vnew rest,
      (∀ e ∈ vnew, e.isLoadBalancer = true ∨ e.isValidateCertAliases = true) ∧
      (DeployWorkload d input t).2 =
        t ++ Event.runtimeConfig input.StackRuntimeConfiguration ::
          Event.validateALBRuntime :: (vnew ++ rest) ∧
      (∀ e ∈ rest, e.isLoadBalancer = true ∨ e.isGated = true) ∧
      (∀ err, (validateALBRuntime d
          (t ++ [Event.runtimeConfig input.StackRuntimeConfiguration])).1 = some err →
        DeployWorkload d input t =
          (.error err, (validateALBRuntime d
            (t ++ [Event.runtimeConfig input.StackRuntimeConfiguration])).2) ∧
        rest = []) ∧
      ((validateALBRuntime d
          (t ++ [Event.runtimeConfig input.StackRuntimeConfiguration])).1 ≠ none → rest = []) := by
  obtain ⟨vnew, rest, _, hv', hs, hr, hf⟩ :=
    stackConfiguration_shape d input.StackRuntimeConfiguration t rc hrc
  have builderGated : ∀ e : Event, e.isBuilder = true → e.isGated = true := by
    intro e he
    cases e <;> simp_all [Event.isBuilder, Event.isGated]
  unfold DeployWorkload
  rcases hS : stackConfiguration d input.StackRuntimeConfiguration t with ⟨err | out, t1⟩
  · rw [hS] at hs hf
    simp only at hs
    refine ⟨vnew, rest, hv', hs, ?_, ?_, ?_⟩
    · intro e he
      rcases hr e he with h | h
      · exact Or.inl h
      · exact Or.inr (builderGated e h)
    · intro err' h
      obtain ⟨h1, h2⟩ := hf err' h
      refine ⟨?_, h2⟩
      simp only [Prod.mk.injEq, Except.error.injEq] at h1
      simp only
      rw [h1.1, h1.2]
    · intro h
      cases hV : (validateALBRuntime d
          (t ++ [Event.runtimeConfig input.StackRuntimeConfiguration])).1 with
      | none => exact absurd hV h
      | some err' => exact (hf err' hV).2
  · rw [hS] at hs hf
    simp only at hs
    have hnone : (validateALBRuntime d
        (t ++ [Event.runtimeConfig input.StackRuntimeConfiguration])).1 = none := by
      cases hV : (validateALBRuntime d
          (t ++ [Event.runtimeConfig input.StackRuntimeConfiguration])).1 with
      | none => rfl
      | some err' =>
        have := (hf err' hV).1
        simp at this
    refine ⟨vnew, rest ++ [Event.deploy input.Options out], hv', ?_, ?_, ?_, ?_⟩
    · simp only
      split <;> (simp only; rw [hs]; simp)
    · intro e he
      rcases List.mem_append.mp he with h | h
      · rcases hr e h with h' | h'
        · exact Or.inl h'
        · exact Or.inr (builderGated e h')
      · rw [List.mem_singleton.mp h]
        exact Or.inr rfl
    · intro err' h
      rw [hnone] at h
      simp at h
    · intro h
      exact absurd hnone h

theorem GenerateCloudFormationTemplate_shape (d : backendSvcDeployer)
    (input : GenerateCloudFormationTemplateInput) (t : Trace) (rc : RuntimeConfig)
    (hrc : d.base.runtimeConfig t input.StackRuntimeConfiguration = .ok rc) :
    ∃ vnew rest,
      (∀ e ∈ vnew, e.isLoadBalancer = true ∨ e.isValidateCertAliases = true) ∧
      (GenerateCloudFormationTemplate d input t).2 =
        t ++ Event.runtimeConfig input.StackRuntimeConfiguration ::
          Event.validateALBRuntime :: (vnew ++ rest) ∧
      (∀ e ∈ rest, e.isLoadBalancer = true ∨ e.isGated = true) ∧
      (∀ err, (validateALBRuntime d
          (t ++ [Event.runtimeConfig input.StackRuntimeConfiguration])).1 = some err →
        GenerateCloudFormationTemplate d input t =
          (.error err, (validateALBRuntime d
            (t ++ [Event.runtimeConfig input.StackRuntimeConfiguration])).2) ∧
        rest = []) ∧
      ((validateALBRuntime d
          (t ++ [Event.runtimeConfig input.StackRuntimeConfiguration])).1 ≠ none → rest = []) := by
  obtain ⟨vnew, rest, _, hv', hs, hr, hf⟩ :=
    stackConfiguration_shape d input.StackRuntimeConfiguration t rc hrc
  have builderGated : ∀ e : Event, e.isBuilder = true → e.isGated = true := by
    intro e he
    cases e <;> simp_all [Event.isBuilder, Event.isGated]
  unfold GenerateCloudFormationTemplate
  rcases hS : stackConfiguration d input.StackRuntimeConfiguration t with ⟨err | out, t1⟩
  · rw [hS] at hs hf
    simp only at hs
    refine ⟨vnew, rest, hv', hs, ?_, ?_, ?_⟩
    · intro e he
      rcases hr e he with h | h
      · exact Or.inl h
      · exact Or.inr (builderGated e h)
    · intro err' h
      obtain ⟨h1, h2⟩ := hf err' h
      refine ⟨?_, h2⟩
      simp only [Prod.mk.injEq, Except.error.injEq] at h1
      simp only
      rw [h1.1, h1.2]
    · intro h
      cases hV : (validateALBRuntime d
          (t ++ [Event.runtimeConfig input.StackRuntimeConfiguration])).1 with
      | none => exact absurd hV h
      | some err' => exact (hf err' hV).2
  · rw [hS] at hs hf
    simp only at hs
    have hnone : (validateALBRuntime d
        (t ++ [Event.runtimeConfig input.StackRuntimeConfiguration])).1 = none := by
      cases hV : (validateALBRuntime d
          (t ++ [Event.runtimeConfig input.StackRuntimeConfiguration])).1 with
      | none => rfl
      | some err' =>
        have := (hf err' hV).1
        simp at this
    refine ⟨vnew, rest ++ [Event.generateCloudFormationTemplate out.conf], hv', ?_, ?_, ?_, ?_⟩
    · simp only
      rw [hs]
      simp
    · intro e he
      rcases List.mem_append.mp he with h | h
      · rcases hr e h with h' | h'
        · exact Or.inl h'
        · exact Or.inr (builderGated e h')
      · rw [List.mem_singleton.mp h]
        exact Or.inr rfl
    · intro err' h
      rw [hnone] at h
      simp at h
    · intro h
      exact absurd hnone h


theorem entry_gate (new vnew rest : Trace) (rcEv : Event) (V1 : Option GoError)
    (hnew : new = rcEv :: Event.validateALBRuntime :: (vnew ++ rest))
    (hrc : rcEv.isGated = false) (hrcne : rcEv ≠ Event.validateALBRuntime)
    (hv : ∀ e ∈ vnew, e.isLoadBalancer = true ∨ e.isValidateCertAliases = true)
    (hr : ∀ e ∈ rest, e.isLoadBalancer = true ∨ e.isGated = true)
    (hrest : V1 ≠ none → rest = []) :
    new.count Event.validateALBRuntime = 1 ∧
    (∀ pre e post, new = pre ++ e :: post → e.isGated = true →
      Event.validateALBRuntime ∈ pre ∧ V1 = none) ∧
    (V1 ≠ none → ∀ e ∈ new, e.isGated = false) := by
  obtain ⟨h1, h2, h3⟩ := gate_of_shape rcEv vnew rest hrc hrcne hv hr
  subst hnew
  refine ⟨h1, ?_, fun h => h3 (hrest h)⟩
  intro pre e post hsplit hg
  refine ⟨h2 pre e post hsplit hg, ?_⟩
  by_contra hne
  have hmem : e ∈ rcEv :: Event.validateALBRuntime :: (vnew ++ rest) := by
    rw [hsplit]
    simp
  have := h3 (hrest hne) e hmem
  rw [hg] at this
  simp at this

/-- C7 (amended): in every call of `DeployWorkload`, `runtimeConfig` is called
first. If it fails, its error is returned and nothing else is called, so
`validateALBRuntime` is not run. If it succeeds, `validateALBRuntime` is run
exactly once; every call of a stack builder or of `d.deploy` comes after that
run and happens only when validation returned no error; and when validation
fails, `DeployWorkload` returns no recommender together with the validation
error and calls neither a stack builder nor `d.deploy`. The same holds for
`GenerateCloudFormationTemplate` with respect to the stack builders and
`d.generateCloudFormationTemplate`. -/
theorem DeployWorkload_gated_by_validation (d : backendSvcDeployer)
    (input : DeployWorkloadInput) (gin : GenerateCloudFormationTemplateInput) (t : Trace) :
    (∃ new, (DeployWorkload d input t).2 = t ++ new ∧
      (∀ e, d.base.runtimeConfig t input.StackRuntimeConfiguration = .error e →
        DeployWorkload d input t =
          (.error e, t ++ [Event.runtimeConfig input.StackRuntimeConfiguration]) ∧
        new.count Event.validateALBRuntime = 0 ∧ ∀ ev ∈ new, ev.isGated = false) ∧
      (∀ rc, d.base.runtimeConfig t input.StackRuntimeConfiguration = .ok rc →
        new.count Event.validateALBRuntime = 1 ∧
        (∀ pre ev post, new = pre ++ ev :: post → ev.isGated = true →
          Event.validateALBRuntime ∈ pre ∧
          (validateALBRuntime d
            (t ++ [Event.runtimeConfig input.StackRuntimeConfiguration])).1 = none) ∧
        (∀ err, (validateALBRuntime d
            (t ++ [Event.runtimeConfig input.StackRuntimeConfiguration])).1 = some err →
          DeployWorkload d input t =
            (.error err, (validateALBRuntime d
              (t ++ [Event.runtimeConfig input.StackRuntimeConfiguration])).2) ∧
          ∀ ev ∈ new, ev.isGated = false))) ∧
    (∃ new, (GenerateCloudFormationTemplate d gin t).2 = t ++ new ∧
      (∀ e, d.base.runtimeConfig t gin.StackRuntimeConfiguration = .error e →
        GenerateCloudFormationTemplate d gin t =
          (.error e, t ++ [Event.runtimeConfig gin.StackRuntimeConfiguration]) ∧
        new.count Event.validateALBRuntime = 0 ∧ ∀ ev ∈ new, ev.isGated = false) ∧
      (∀ rc, d.base.runtimeConfig t gin.StackRuntimeConfiguration = .ok rc →
        new.count Event.validateALBRuntime = 1 ∧
        (∀ pre ev post, new = pre ++ ev :: post → ev.isGated = true →
          Event.validateALBRuntime ∈ pre ∧
          (validateALBRuntime d
            (t ++ [Event.runtimeConfig gin.StackRuntimeConfiguration])).1 = none) ∧
        (∀ err, (validateALBRuntime d
            (t ++ [Event.runtimeConfig gin.StackRuntimeConfiguration])).1 = some err →
          GenerateCloudFormationTemplate d gin t =
            (.error err, (validateALBRuntime d
              (t ++ [Event.runtimeConfig gin.StackRuntimeConfiguration])).2) ∧
          ∀ ev ∈ new, ev.isGated = false))) := by
  constructor
  · cases hrc : d.base.runtimeConfig t input.StackRuntimeConfiguration with
    | error e =>
      have hD : DeployWorkload d input t =
          (.error e, t ++ [Event.runtimeConfig input.StackRuntimeConfiguration]) := by
        unfold DeployWorkload
        rw [stackConfiguration_runtimeConfig_error d _ t e hrc]
      refine ⟨[Event.runtimeConfig input.StackRuntimeConfiguration], by rw [hD], ?_, ?_⟩
      · intro e' he'
        simp only [Except.error.injEq] at he'
        subst he'
        exact ⟨hD, by simp, by simp [Event.isGated]⟩
      · intro rc h
        simp at h
    | ok rc =>
      obtain ⟨vnew, rest, hv, hs, hr, hf, hrest⟩ := DeployWorkload_shape d input t rc hrc
      obtain ⟨g1, g2, g3⟩ := entry_gate _ vnew rest
        (Event.runtimeConfig input.StackRuntimeConfiguration)
        (validateALBRuntime d (t ++ [Event.runtimeConfig input.StackRuntimeConfiguration])).1
        rfl rfl (by simp) hv hr hrest
      refine ⟨_, hs, ?_, ?_⟩
      · intro e h
        simp at h
      · intro rc' _
        refine ⟨g1, g2, ?_⟩
        intro err h
        exact ⟨(hf err h).1, g3 (by rw [h]; simp)⟩
  · cases hrc : d.base.runtimeConfig t gin.StackRuntimeConfiguration with
    | error e =>
      have hD : GenerateCloudFormationTemplate d gin t =
          (.error e, t ++ [Event.runtimeConfig gin.StackRuntimeConfiguration]) := by
        unfold GenerateCloudFormationTemplate
        rw [stackConfiguration_runtimeConfig_error d _ t e hrc]
      refine ⟨[Event.runtimeConfig gin.StackRuntimeConfiguration], by rw [hD], ?_, ?_⟩
      · intro e' he'
        simp only [Except.error.injEq] at he'
        subst he'
        exact ⟨hD, by simp, by simp [Event.isGated]⟩
      · intro rc h
        simp at h
    | ok rc =>
      obtain ⟨vnew, rest, hv, hs, hr, hf, hrest⟩ :=
        GenerateCloudFormationTemplate_shape d gin t rc hrc
      obtain ⟨g1, g2, g3⟩ := entry_gate _ vnew rest
        (Event.runtimeConfig gin.StackRuntimeConfiguration)
        (validateALBRuntime d (t ++ [Event.runtimeConfig gin.StackRuntimeConfiguration])).1
        rfl rfl (by simp) hv hr hrest
      refine ⟨_, hs, ?_, ?_⟩
      · intro e h
        simp at h
      · intro rc' _
        refine ⟨g1, g2, ?_⟩
        intro err h
        exact ⟨(hf err h).1, g3 (by rw [h]; simp)⟩

/-- C7, counterexample: when `runtimeConfig` fails, `DeployWorkload` returns its
error and `validateALBRuntime` is not run at all. -/
theorem DeployWorkload_runtimeConfig_error_skips_validation :
    DeployWorkload
      { sampleDeployer [] none ruleNoAlias [] failingLookup sampleValidator with
        base := failingRuntimeBase [] }
      { StackRuntimeConfiguration := { id := "rc" }, Options := "options" } [] =
      (.error (.external "get service discovery endpoint"),
        [Event.runtimeConfig { id := "rc" }]) ∧
    (DeployWorkload
      { sampleDeployer [] none ruleNoAlias [] failingLookup sampleValidator with
        base := failingRuntimeBase [] }
      { StackRuntimeConfiguration := { id := "rc" }, Options := "options" } []).2.count
        Event.validateALBRuntime ≠ 1 := by
  constructor
  · rfl
  · decide


/-! ## The lookup made after validation -/

theorem validateALBRuntime_none_imported (d : backendSvcDeployer) (t : Trace)
    (hHTTP : d.backendMft.HTTP.IsEmpty = false) (h : (validateALBRuntime d t).1 = none) :
    (validateImportedALBConfig d (t ++ [Event.validateALBRuntime])).1 = none := by
  unfold validateALBRuntime at h
  simp only [hHTTP] at h
  rcases ha : validateImportedALBConfig d (t ++ [Event.validateALBRuntime]) with ⟨_ | ea, t1⟩
  · rfl
  · rw [ha] at h
    simp at h

theorem validateImportedALBConfig_none_accepts (d : backendSvcDeployer) (t : Trace)
    (nameOrARN : String) (hImported : d.backendMft.HTTP.ImportedALB = some nameOrARN)
    (h : (validateImportedALBConfig d t).1 = none) :
    ∃ alb, d.elbGetter t nameOrARN = .ok alb ∧ alb.Scheme = "internal" ∧ listenerRule alb := by
  cases hL : d.elbGetter t nameOrARN with
  | error err =>
    unfold validateImportedALBConfig at h
    simp [hImported, StringValue, hL] at h
  | ok alb =>
    by_cases hS : alb.Scheme = "internal"
    · exact ⟨alb, rfl, hS,
        (validateImportedALBConfig_internal_verdict d t nameOrARN alb hImported hL hS).mp h⟩
    · unfold validateImportedALBConfig at h
      simp [hImported, StringValue, hL, hS] at h

theorem stackConfigurationBuild_event (d : backendSvcDeployer) (rc : RuntimeConfig)
    (opts : List BackendServiceOption) (t : Trace) :
    (stackConfigurationBuild d rc opts t).2 = t ++ [Event.newStack] ∨
    (stackConfigurationBuild d rc opts t).2 = t ++ [Event.NewBackendService opts] := by
  unfold stackConfigurationBuild
  cases d.newStack with
  | some f => exact Or.inl rfl
  | none =>
    refine Or.inr ?_
    simp only
    split <;> rfl

theorem validateALBRuntime_no_builder (d : backendSvcDeployer) (t : Trace)
    (opts : List BackendServiceOption) :
    Event.NewBackendService opts ∉ (validateALBRuntime d t).2.drop t.length := by
  obtain ⟨vnew, hv, hv'⟩ := validateALBRuntime_trace d t
  rw [hv, List.drop_left]
  intro h
  rcases List.mem_cons.mp h with h | h
  · cases h
  · rcases hv' _ h with h' | h' <;>
      simp [Event.isLoadBalancer, Event.isValidateCertAliases] at h'

/-- C8, counterexample: the lookup answers the call made by the validation with
an internal load balancer with one listener and answers the lookup made after
validation with a descriptor with two `HTTP` listeners. `stackConfiguration`
succeeds and hands the second descriptor to `stack.NewBackendService`; that
descriptor does not satisfy the listener rule, `validateImportedALBConfig`
rejects it, and it is not the descriptor the validation found. -/
theorem stackConfiguration_passes_unvalidated_alb :
    ((stackConfiguration
        (sampleDeployer [] (some "my-alb") ruleNoAlias []
          (changingLookup (.ok (internalALB [⟨"HTTPS", 443⟩]))
            (.ok (internalALB [⟨"HTTP", 80⟩, ⟨"HTTP", 8080⟩])))
          sampleValidator)
        { id := "rc" } []).2 =
      [Event.runtimeConfig { id := "rc" }, Event.validateALBRuntime,
        Event.LoadBalancer "my-alb", Event.LoadBalancer "my-alb",
        Event.NewBackendService
          [.WithImportedInternalALB (internalALB [⟨"HTTP", 80⟩, ⟨"HTTP", 8080⟩])]]) ∧
    (errorOf (stackConfiguration
        (sampleDeployer [] (some "my-alb") ruleNoAlias []
          (changingLookup (.ok (internalALB [⟨"HTTPS", 443⟩]))
            (.ok (internalALB [⟨"HTTP", 80⟩, ⟨"HTTP", 8080⟩])))
          sampleValidator)
        { id := "rc" } []).1 = none) ∧
    (¬ listenerRule (internalALB [⟨"HTTP", 80⟩, ⟨"HTTP", 8080⟩])) ∧
    ((validateImportedALBConfig
        (sampleDeployer [] (some "my-alb") ruleNoAlias []
          (constLookup (internalALB [⟨"HTTP", 80⟩, ⟨"HTTP", 8080⟩])) sampleValidator)
        []).1 ≠ none) ∧
    (changingLookup (.ok (internalALB [⟨"HTTPS", 443⟩]))
        (.ok (internalALB [⟨"HTTP", 80⟩, ⟨"HTTP", 8080⟩]))
        [Event.runtimeConfig { id := "rc" }, Event.validateALBRuntime] "my-alb" =
      .ok (internalALB [⟨"HTTPS", 443⟩])) := by
  refine ⟨?_, ?_, ?_, ?_, ?_⟩
  · decide
  · decide
  · decide
  · decide
  · rfl

/-- C8 (amended): whenever `stackConfiguration` passes the option
`stack.WithImportedInternalALB(lb)` to `stack.NewBackendService`, the manifest
sets `ImportedALB`, `validateALBRuntime` returned no error earlier in the same
call, and `lb` is the descriptor returned by the lookup of
`aws.StringValue(ImportedALB)` that `stackConfiguration` makes after the
validation. When the `http` block is non-empty, the lookup made by
`validateImportedALBConfig` in the same call found a descriptor with scheme
`internal` that satisfies the listener rule; so `lb` has scheme `internal` and
satisfies the listener rule whenever that lookup returned `lb` as well. -/
theorem stackConfiguration_imported_alb_option (d : backendSvcDeployer)
    (sr : StackRuntimeConfiguration) (t : Trace) (opts : List BackendServiceOption)
    (lb : LoadBalancer)
    (hCall : Event.NewBackendService opts ∈ (stackConfiguration d sr t).2.drop t.length)
    (hOpt : BackendServiceOption.WithImportedInternalALB lb ∈ opts) :
    d.backendMft.HTTP.ImportedALB ≠ none ∧
    (validateALBRuntime d (t ++ [Event.runtimeConfig sr])).1 = none ∧
    d.elbGetter (validateALBRuntime d (t ++ [Event.runtimeConfig sr])).2
      (StringValue d.backendMft.HTTP.ImportedALB) = .ok lb ∧
    (stackConfiguration d sr t).2 =
      (validateALBRuntime d (t ++ [Event.runtimeConfig sr])).2 ++
        [Event.LoadBalancer (StringValue d.backendMft.HTTP.ImportedALB),
          Event.NewBackendService [.WithImportedInternalALB lb]] ∧
    (d.backendMft.HTTP.IsEmpty = false →
      (∃ alb, d.elbGetter (t ++ [Event.runtimeConfig sr] ++ [Event.validateALBRuntime])
          (StringValue d.backendMft.HTTP.ImportedALB) = .ok alb ∧
        alb.Scheme = "internal" ∧ listenerRule alb) ∧
      (d.elbGetter (t ++ [Event.runtimeConfig sr] ++ [Event.validateALBRuntime])
          (StringValue d.backendMft.HTTP.ImportedALB) = .ok lb →
        lb.Scheme = "internal" ∧ listenerRule lb)) := by
  have hNoB := validateALBRuntime_no_builder d (t ++ [Event.runtimeConfig sr]) opts
  obtain ⟨vnew, hv, -⟩ := validateALBRuntime_trace d (t ++ [Event.runtimeConfig sr])
  rw [hv, List.drop_left] at hNoB
  have hCall2 := hCall
  unfold stackConfiguration at hCall2
  cases hrc : d.base.runtimeConfig t sr with
  | error e =>
    simp [hrc] at hCall2
  | ok rc =>
    simp only [hrc] at hCall2
    rcases hV : validateALBRuntime d (t ++ [Event.runtimeConfig sr]) with ⟨_ | err, t2⟩
    · rw [hV] at hv
      simp only at hv
      simp only [hV] at hCall2
      have hsplit : ∀ tail : Trace, Event.NewBackendService opts ∈ (t2 ++ tail).drop t.length →
          Event.NewBackendService opts ∈ tail := by
        intro tail hm
        have hshape : t2 ++ tail =
            t ++ (Event.runtimeConfig sr :: ((Event.validateALBRuntime :: vnew) ++ tail)) := by
          rw [hv]
          simp
        rw [hshape, List.drop_left] at hm
        rcases List.mem_cons.mp hm with h | h
        · cases h
        · rcases List.mem_append.mp h with h' | h'
          · exact absurd h' hNoB
          · exact h'
      cases hI : d.backendMft.HTTP.ImportedALB with
      | none =>
        simp only [hI] at hCall2
        rcases stackConfigurationBuild_event d rc [] t2 with hb | hb
        · rw [hb] at hCall2
          have := hsplit _ hCall2
          simp at this
        · rw [hb] at hCall2
          have := hsplit _ hCall2
          simp only [List.mem_singleton, Event.NewBackendService.injEq] at this
          rw [this] at hOpt
          simp at hOpt
      | some a =>
        simp only [hI] at hCall2
        cases hL : d.elbGetter t2 (StringValue (some a)) with
        | error err =>
          simp only [hL] at hCall2
          have := hsplit _ hCall2
          simp at this
        | ok lb2 =>
          simp only [hL] at hCall2
          rcases stackConfigurationBuild_event d rc [.WithImportedInternalALB lb2]
              (t2 ++ [Event.LoadBalancer (StringValue (some a))]) with hb | hb
          · rw [hb, List.append_assoc] at hCall2
            have := hsplit _ hCall2
            simp at this
          · rw [hb, List.append_assoc] at hCall2
            have hm := hsplit _ hCall2
            simp only [List.singleton_append, List.mem_cons, List.mem_singleton,
              Event.NewBackendService.injEq, List.not_mem_nil, or_false] at hm
            rcases hm with hm | hm
            · cases hm
            · rw [hm] at hOpt
              simp only [List.mem_singleton, BackendServiceOption.WithImportedInternalALB.injEq]
                at hOpt
              subst hOpt
              have hSC : (stackConfiguration d sr t).2 =
                  t2 ++ [Event.LoadBalancer (StringValue (some a)),
                    Event.NewBackendService [.WithImportedInternalALB lb]] := by
                unfold stackConfiguration
                simp only [hrc, hV, hI, hL]
                rw [hb]
                simp
              refine ⟨by simp, rfl, rfl, hSC, ?_⟩
              intro hHTTP
              have hnone : (validateALBRuntime d (t ++ [Event.runtimeConfig sr])).1 = none := by
                rw [hV]
              obtain ⟨alb, h1, h2, h3⟩ := validateImportedALBConfig_none_accepts d _ a hI
                (validateALBRuntime_none_imported d _ hHTTP hnone)
              simp only [StringValue]
              refine ⟨⟨alb, h1, h2, h3⟩, ?_⟩
              intro hsame
              rw [h1] at hsame
              simp only [Except.ok.injEq] at hsame
              subst hsame
              exact ⟨h2, h3⟩
    · have hmem : Event.NewBackendService opts ∈
          (Event.runtimeConfig sr :: Event.validateALBRuntime :: vnew) := by
        rw [hV] at hv
        simp only at hv
        simp only [hV] at hCall2
        rw [hv] at hCall2
        simpa using hCall2
      rcases List.mem_cons.mp hmem with h | h
      · cases h
      · exact absurd h hNoB

/-- Witness for C8 (amended): an internal load balancer with listeners `HTTPS`
and `HTTP`, returned by both lookups. -/
theorem stackConfiguration_imported_alb_option_witness :
    (internalALB [⟨"HTTPS", 443⟩, ⟨"HTTP", 80⟩]).Scheme = "internal" ∧
      listenerRule (internalALB [⟨"HTTPS", 443⟩, ⟨"HTTP", 80⟩]) :=
  ((stackConfiguration_imported_alb_option
    (sampleDeployer [] (some "my-alb") ruleNoAlias []
      (constLookup (internalALB [⟨"HTTPS", 443⟩, ⟨"HTTP", 80⟩])) sampleValidator)
    { id := "rc" } []
    [.WithImportedInternalALB (internalALB [⟨"HTTPS", 443⟩, ⟨"HTTP", 80⟩])]
    (internalALB [⟨"HTTPS", 443⟩, ⟨"HTTP", 80⟩])
    (by decide) (by decide)).2.2.2.2 rfl).2 rfl

/-- C9, evaluation at the failing input: the lookup answers the validation with
an accepted load balancer and fails when called again after validation;
`stackConfiguration`, `DeployWorkload` and `GenerateCloudFormationTemplate`
return the error of the lookup itself, with no wrapping. When the lookup made
by the validation fails, the error is wrapped twice. -/
theorem stackConfiguration_returns_bare_lookup_error :
    (errorOf (stackConfiguration
        (sampleDeployer [] (some "my-alb") ruleNoAlias []
          (changingLookup (.ok (internalALB [⟨"HTTPS", 443⟩])) (.error (.external "throttled")))
          sampleValidator)
        { id := "rc" } []).1 = some (.external "throttled")) ∧
    (errorOf (DeployWorkload
        (sampleDeployer [] (some "my-alb") ruleNoAlias []
          (changingLookup (.ok (internalALB [⟨"HTTPS", 443⟩])) (.error (.external "throttled")))
          sampleValidator)
        { StackRuntimeConfiguration := { id := "rc" }, Options := "options" } []).1 =
      some (.external "throttled")) ∧
    (errorOf (GenerateCloudFormationTemplate
        (sampleDeployer [] (some "my-alb") ruleNoAlias []
          (changingLookup (.ok (internalALB [⟨"HTTPS", 443⟩])) (.error (.external "throttled")))
          sampleValidator)
        { StackRuntimeConfiguration := { id := "rc" } } []).1 =
      some (.external "throttled")) ∧
    ((stackConfiguration
        (sampleDeployer [] (some "my-alb") ruleNoAlias []
          (changingLookup (.ok (internalALB [⟨"HTTPS", 443⟩])) (.error (.external "throttled")))
          sampleValidator)
        { id := "rc" } []).2 =
      [Event.runtimeConfig { id := "rc" }, Event.validateALBRuntime,
        Event.LoadBalancer "my-alb", Event.LoadBalancer "my-alb"]) ∧
    (errorOf (stackConfiguration
        (sampleDeployer [] (some "my-alb") ruleNoAlias [] failingLookup sampleValidator)
        { id := "rc" } []).1 =
      some (.wrapf "validate imported ALB configuration for \"http\": %w" []
        (.wrapf "retrieve load balancer %q: %w" [.str "my-alb"]
          (.external "lookup failed")))) := by
  refine ⟨?_, ?_, ?_, ?_, ?_⟩
  · decide
  · decide
  · decide
  · decide
  · decide


/-! ## Construction -/

/-- C10, counterexample: for a manifest of another kind, when the base
constructor `newSvcDeployer` fails, `NewBackendDeployer` returns the error of
`newSvcDeployer`, which is not the error `manifest is not of type Backend
Service`. -/
theorem NewBackendDeployer_base_error_first :
    errorOf (NewBackendDeployer failingConstructors
      { Mft := .other "Load Balanced Web Service", customResources := "", session := "s" }) =
      some (.external "create default session") ∧
    errorOf (NewBackendDeployer failingConstructors
      { Mft := .other "Load Balanced Web Service", customResources := "", session := "s" }) ≠
      some (.errorf "manifest is not of type %s" [.str "Backend Service"]) := by
  constructor
  · rfl
  · decide

/-- C10 (amended): for an input whose manifest is not a backend service
manifest, `NewBackendDeployer` returns no deployer and an error: the error of
`newSvcDeployer` when the base constructor fails, and otherwise the error
`manifest is not of type Backend Service`. Whenever `NewBackendDeployer`
returns a deployer, the manifest of the input is a backend service manifest
and it is the `backendMft` of the deployer. -/
theorem NewBackendDeployer_kind (c : Constructors) (input : WorkloadDeployerInput) :
    (∀ kind, input.Mft = .other kind →
      (∃ err, errorOf (NewBackendDeployer c input) = some err) ∧
      (∀ d, NewBackendDeployer c input ≠ .ok d) ∧
      (∀ err,
        c.newSvcDeployer { input with customResources := "backendCustomResources" } = .error err →
        errorOf (NewBackendDeployer c input) = some err) ∧
      (∀ base,
        c.newSvcDeployer { input with customResources := "backendCustomResources" } = .ok base →
        errorOf (NewBackendDeployer c input) =
          some (.errorf "manifest is not of type %s" [.str BackendServiceType]))) ∧
    (∀ d, NewBackendDeployer c input = .ok d →
      input.Mft = .BackendService d.backendMft) := by
  constructor
  · intro kind hk
    unfold NewBackendDeployer
    simp only [hk]
    cases hb : c.newSvcDeployer
        { Mft := WorkloadManifest.other kind, customResources := "backendCustomResources",
          session := input.session } with
    | error e =>
      refine ⟨⟨e, rfl⟩, ?_, ?_, ?_⟩
      · intro d h
        simp at h
      · intro err h
        simp only [Except.error.injEq] at h
        rw [h]
        rfl
      · intro base h
        simp at h
    | ok base =>
      refine ⟨⟨_, rfl⟩, ?_, ?_, ?_⟩
      · intro d h
        simp at h
      · intro err h
        simp at h
      · intro base' _
        rfl
  · intro d h
    unfold NewBackendDeployer at h
    simp only at h
    cases hb : c.newSvcDeployer { input with customResources := "backendCustomResources" } with
    | error e =>
      rw [hb] at h
      simp at h
    | ok base =>
      rw [hb] at h
      simp only at h
      cases hm : input.Mft with
      | other kind =>
        rw [hm] at h
        simp at h
      | BackendService mft =>
        rw [hm] at h
        simp only [Except.ok.injEq] at h
        rw [← h]

end Deploy
